import Mathlib

/- Verification development for the Business-Content-Optimizer repository
   (AGENT_1): a shallow embedding of database.py, analyzer.py, extractor.py
   and the analyze_url orchestration of streamlit_app.py, with theorems
   settling the specification's claims about them. -/

/-- Python runtime values as carried by the analysis-results dictionary
(strings, numbers, nested string-keyed dictionaries), the shape built by
DocumentAnalyzer.analyze_document, analyzer.py lines 58-66. -/
inductive PyVal where
  | str (s : String)
  | num (q : ℚ)
  | dict (entries : List (String × PyVal))

/-- Python dictionary key lookup (dict[key] and dict.get(key) both resolve
the key the same way; the first binding wins, and the dictionaries built by
this program never repeat a key). `none` models an absent key. -/
def pyLookup : List (String × PyVal) → String → Option PyVal
  | [], _ => none
  | (k, v) :: rest, key => if k = key then some v else pyLookup rest key

/-- Python str() of a value, as used by the f-string interpolation in
save_analysis's analysis_summary metadata (database.py line 129).  The dict
rendering is abbreviated: it is unreachable in the repository's flows, where
the looked-up key is always absent. -/
def pyStr : PyVal → String
  | PyVal.str s => s
  | PyVal.num q => toString q
  | PyVal.dict _ => "\x7b...\x7d"

/-- One row of the SQLite `sessions` table (database.py lines 57-64):
six TEXT columns, no primary key, no timestamp. -/
structure SessionRow where
  session_id : String
  url : String
  readability : String
  structureTxt : String
  completeness : String
  style : String

deriving instance DecidableEq, Repr for SessionRow

/-- One entry of the ChromaDB content store as written by save_analysis
(database.py lines 122-132): the document text, the metadata fields, and the
id (which save_analysis sets to the session_id).  Grouping of entries into a
per-URL collection named by an MD5 hash of the URL is not load-bearing for
any claim and is not modelled; the url metadata field is kept. -/
structure ContentEntry where
  document : String
  session_id : String
  url : String
  analysis_summary : String
  id : String

deriving instance DecidableEq, Repr for ContentEntry

/-- The two storage backends managed by DatabaseManager: the SQLite
`sessions` rows in insertion (rowid) order, and the ChromaDB content
entries in insertion order. -/
structure Store where
  sessions : List SessionRow
  contents : List ContentEntry

deriving instance DecidableEq, Repr for Store

/-- Require a Python string value; other runtime types never reach the
SQLite insert in the repository's flows and are modelled as failure. -/
def extractStr : Option PyVal → Option String
  | some (PyVal.str s) => some s
  | _ => none

/-- The readability column value computed by save_analysis (database.py
line 114): analysis_results["readability"]["analysis"] when the value is a
dict (KeyError, i.e. `none`, when the nested key is missing), otherwise
analysis_results["readability"] itself. -/
def readabilityValue (results : List (String × PyVal)) : Option String :=
  match pyLookup results "readability" with
  | some (PyVal.dict d) => extractStr (pyLookup d "analysis")
  | some (PyVal.str s) => some s
  | some (PyVal.num _) => none
  | none => none

/-- The SQLite row assembled by save_analysis's INSERT (database.py lines
109-119).  `none` models the KeyError raised when a required key is absent
(or a non-string value that the flows of this repository never produce). -/
def extractRow (session_id url : String) (results : List (String × PyVal)) :
    Option SessionRow :=
  match readabilityValue results,
        extractStr (pyLookup results "structure"),
        extractStr (pyLookup results "completeness"),
        extractStr (pyLookup results "style") with
  | some a, some s, some c, some y => some ⟨session_id, url, a, s, c, y⟩
  | _, _, _, _ => none

/-- The analysis_summary metadata string written to the content store
(database.py line 129): an f-string over analysis_results.get with the
default value the string "N/A". -/
def analysisSummary (results : List (String × PyVal)) : String :=
  "Readability: " ++
    (match pyLookup results "readability_score" with
     | some v => pyStr v
     | none => "N/A")

/-- DatabaseManager.save_analysis (database.py lines 94-132): append one row
to the SQLite sessions table and one entry (document, metadata, id) to the
content store.  `none` models the exception paths of the row assembly; the
two writes are not atomic in the source, but no claim distinguishes the
intermediate state, so they are modelled together. -/
def saveAnalysis (st : Store) (session_id url content : String)
    (results : List (String × PyVal)) : Option Store :=
  match extractRow session_id url results with
  | none => none
  | some row =>
      some ⟨st.sessions ++ [row],
            st.contents ++ [⟨content, session_id, url, analysisSummary results, session_id⟩]⟩

/-- DatabaseManager.get_session (database.py lines 163-176):
SELECT * FROM sessions WHERE session_id = ? followed by fetchone().  With no
ORDER BY and no index on session_id, SQLite scans the table in rowid order,
so fetchone returns the earliest inserted matching row; no match gives
None. -/
def getSession (st : Store) (session_id : String) : Option SessionRow :=
  st.sessions.find? (fun r => r.session_id == session_id)

/-- A tuple returned by get_recent_sessions: SELECT session_id, url, rowid
(database.py line 147). -/
structure RecentEntry where
  session_id : String
  url : String
  rowid : Nat

deriving instance DecidableEq, Repr for RecentEntry

/-- A tuple returned by get_all_sessions: SELECT session_id, url,
readability, structure, completeness, style, rowid (database.py line 160). -/
structure AllEntry where
  session_id : String
  url : String
  readability : String
  structureTxt : String
  completeness : String
  style : String
  rowid : Nat

deriving instance DecidableEq, Repr for AllEntry

/-- Projection of a get_all_sessions tuple onto the columns selected by
get_recent_sessions. -/
def projAll (e : AllEntry) : RecentEntry :=
  ⟨e.session_id, e.url, e.rowid⟩

/-- The sessions table with its implicit rowids: SQLite assigns rowids
1, 2, 3, ... in insertion order to this schema. -/
def numberedRows (st : Store) : List (Nat × SessionRow) :=
  st.sessions.enum.map (fun p => (p.1 + 1, p.2))

/-- The sessions table in ORDER BY rowid DESC order. -/
def sessionsDesc (st : Store) : List (Nat × SessionRow) :=
  (numberedRows st).reverse

/-- DatabaseManager.get_all_sessions (database.py lines 150-161). -/
def getAllSessions (st : Store) : List AllEntry :=
  (sessionsDesc st).map (fun p =>
    ⟨p.2.session_id, p.2.url, p.2.readability, p.2.structureTxt,
     p.2.completeness, p.2.style, p.1⟩)

/-- DatabaseManager.get_recent_sessions (database.py lines 134-148):
ORDER BY rowid DESC LIMIT ?.  The limit is a Python int; per SQLite
semantics a negative LIMIT means "no upper bound on the number of rows
returned", so only a nonnegative limit truncates. -/
def getRecentSessions (st : Store) (limit : Int) : List RecentEntry :=
  let desc := (sessionsDesc st).map (fun p => RecentEntry.mk p.2.session_id p.2.url p.1)
  if limit < 0 then desc else desc.take limit.toNat

/-- Python truthiness test `not self.api_key` on the Optional[str] credential
(analyzer.py line 241): None and the empty string are falsy. -/
def falsy : Option String → Bool
  | none => true
  | some s => s.isEmpty

/-- The observable shape of the HTTP response body as _ask_llm probes it
(analyzer.py lines 262-278): whether response.json() parses, response.text,
whether the parsed JSON has an 'error' key and the str() of its value, the
str() of the whole parsed JSON, and whether a 'choices' key is present with
the nested message content. -/
structure HttpBody where
  isJson : Bool
  rawText : String
  hasError : Bool
  errorRepr : String
  selfRepr : String
  hasChoices : Bool
  choicesContent : String

/-- The behaviour of one call to the OpenRouter endpoint: either
requests.post (or the body handling inside the try) raises, or a response
with a status code and a body comes back. -/
inductive EndpointBehavior where
  | raises (msg : String)
  | responds (status : Nat) (body : HttpBody)

/-- DocumentAnalyzer._ask_llm (analyzer.py lines 226-280), with the network
call abstracted as an EndpointBehavior.  The order of the checks follows the
source exactly: missing/empty key sentinel first, then the exception path,
then the JSON-parse check, then the non-200 status check, then the 'error'
key, then the 'choices' key. -/
def askLlm (key : Option String) (prompt : String) (ep : EndpointBehavior) : String :=
  if falsy key then
    "Error: API key is not set. Please add your API key to the .env file as OPENROUTER_API_KEY."
  else
    match ep with
    | EndpointBehavior.raises msg => "Error connecting to API: " ++ msg
    | EndpointBehavior.responds status b =>
        if !b.isJson then
          "API Error: Non-JSON response - " ++ b.rawText
        else if status ≠ 200 then
          "API Error: HTTP " ++ toString status ++ " - " ++
            (if b.hasError then b.errorRepr else b.selfRepr)
        else if b.hasError then
          "API Error: " ++ b.errorRepr
        else if !b.hasChoices then
          "Unexpected API response format: " ++ b.selfRepr
        else
          b.choicesContent

/-- Python string slicing text[:2000] (analyzer.py lines 109, 147, 184, 222):
the first n characters of the string. -/
def pyTrunc (s : String) (n : Nat) : String :=
  ⟨s.data.take n⟩

/-- s contains sub as a contiguous substring. -/
def containsStr (s sub : String) : Prop :=
  ∃ l r : String, s = l ++ (sub ++ r)

/-- The readability prompt template (analyzer.py lines 92-110), an f-string
embedding the Flesch score and text[:2000]. -/
def readabilityPrompt (score : ℚ) (text : String) : String :=
  "\n        Analyze the readability of this documentation article for a non-technical marketer:\n        1. The Flesch Reading Ease score is "
  ++ toString score ++
  ".\n        2. Explain what this score means in the context of marketing documentation.\n        3. Identify 3-4 specific sentences or paragraphs that affect readability.\n        4. Provide specific, actionable suggestions to improve readability for marketers.\n        \n        Format your response with these specific markdown sections:\n        ## Assessment\n        [Your assessment of the readability and what the score means]\n        \n        ## Problem Areas\n        [List the specific sentences or paragraphs that affect readability]\n        \n        ## Actionable Suggestions\n        [List numbered, specific suggestions for improvement]\n        \n        Article: "
  ++ pyTrunc text 2000 ++ "\n        "

/-- The structure prompt template (analyzer.py lines 127-148). -/
def structurePrompt (text : String) : String :=
  "\n        Analyze the structure and flow of this documentation article:\n        1. Evaluate the use of headings, subheadings, paragraph length, and lists.\n        2. Assess if information flows logically and is easy to navigate.\n        3. Identify 3-4 specific structural issues that could be improved.\n        4. Provide specific, actionable suggestions for better structure and flow.\n        \n        Format your response with these specific markdown sections:\n        ## Assessment\n        [Your assessment of the overall structure and flow]\n        \n        ## Structural Elements\n        [Analysis of headings, subheadings, paragraph length, lists, etc.]\n        \n        ## Flow Issues\n        [Specific issues with information flow and navigation]\n        \n        ## Improvement Suggestions\n        [Numbered, specific suggestions for improvement]\n        \n        Article: "
  ++ pyTrunc text 2000 ++ "\n        "

/-- The completeness prompt template (analyzer.py lines 164-185). -/
def completenessPrompt (text : String) : String :=
  "\n        Analyze the completeness of information and examples in this documentation article:\n        1. Assess if there's enough detail to understand and implement the feature or concept.\n        2. Evaluate the quality and quantity of examples provided.\n        3. Identify 3-4 specific areas where more information or examples are needed.\n        4. Provide specific, actionable suggestions for improving completeness.\n        \n        Format your response with these specific markdown sections:\n        ## Assessment\n        [Your assessment of the overall completeness]\n        \n        ## Information Gaps\n        [Specific areas where more information is needed]\n        \n        ## Example Quality\n        [Assessment of examples provided and what's missing]\n        \n        ## Improvement Suggestions\n        [Numbered, specific suggestions for adding information or examples]\n        \n        Article: "
  ++ pyTrunc text 2000 ++ "\n        "

/-- The style prompt template (analyzer.py lines 201-223). -/
def stylePrompt (text : String) : String :=
  "\n        Analyze this article using Microsoft's Style Guide principles, focusing on:\n        1. Voice and Tone: Is it customer-focused, clear, and concise?\n        2. Clarity and Conciseness: Are there complex sentences or jargon that could be simplified?\n        3. Action-oriented language: Does it guide the user effectively?\n        4. Identify 3-4 specific style issues that should be addressed.\n        5. Provide specific, actionable suggestions for improving style adherence.\n        \n        Format your response with these specific markdown sections:\n        ## Assessment\n        [Your overall assessment of style guide adherence]\n        \n        ## Voice and Tone\n        [Analysis of customer focus, clarity, and conciseness]\n        \n        ## Language Issues\n        [Specific examples of complex sentences, jargon, or passive voice]\n        \n        ## Improvement Suggestions\n        [Numbered, specific suggestions for style improvements]\n        \n        Article: "
  ++ pyTrunc text 2000 ++ "\n        "

/-- DocumentAnalyzer._analyze_readability (analyzer.py lines 77-111). -/
def analyzeReadability (key : Option String) (ep : EndpointBehavior)
    (text : String) (score : ℚ) : String :=
  askLlm key (readabilityPrompt score text) ep

/-- DocumentAnalyzer._analyze_structure (analyzer.py lines 113-149). -/
def analyzeStructure (key : Option String) (ep : EndpointBehavior)
    (text : String) : String :=
  askLlm key (structurePrompt text) ep

/-- DocumentAnalyzer._analyze_completeness (analyzer.py lines 151-186). -/
def analyzeCompleteness (key : Option String) (ep : EndpointBehavior)
    (text : String) : String :=
  askLlm key (completenessPrompt text) ep

/-- DocumentAnalyzer._analyze_style (analyzer.py lines 188-224). -/
def analyzeStyle (key : Option String) (ep : EndpointBehavior)
    (text : String) : String :=
  askLlm key (stylePrompt text) ep

/-- Guarded division: textstat wraps its per-text ratios in
try/except ZeroDivisionError handlers that return zero. -/
def safeDiv (a b : ℚ) : ℚ :=
  if b = 0 then 0 else a / b

/-- Count the maximal whitespace-free runs in a character list; the Bool
argument records whether a run is already open. -/
def countWordsAux : Bool → List Char → Nat
  | _, [] => 0
  | inWord, c :: rest =>
      if c.isWhitespace then countWordsAux false rest
      else (if inWord then 0 else 1) + countWordsAux true rest

/-- Modelled from the spec: a simple total word counter standing in for the
textstat library's internal lexicon counter, which is not part of this
repository (textstat is an external dependency; only its caller,
analyzer.py line 49, is in src/). -/
def countWords (text : String) : Nat :=
  countWordsAux false text.data

/-- Modelled from the spec: a simple total sentence counter standing in for
the textstat library's internal sentence counter (external dependency). -/
def countSentences (text : String) : Nat :=
  (text.data.filter (fun c => c == '.' || c == '!' || c == '?')).length

/-- Modelled from the spec: a simple total syllable counter (vowel count)
standing in for the textstat library's syllable counter (external
dependency). -/
def countSyllables (text : String) : Nat :=
  (text.data.filter (fun c =>
    c == 'a' || c == 'e' || c == 'i' || c == 'o' || c == 'u')).length

/-- Modelled from the spec: textstat.flesch_reading_ease, section 4.2 of the
spec — a pure, deterministic function of the text applying the standard
Flesch Reading Ease formula 206.835 - 1.015*(words/sentences) -
84.6*(syllables/words), with degenerate (e.g. empty) input handled without
raising: the library guards the two ratios against division by zero, so the
empty string yields the formula's base constant.  The counting helpers are
total stand-ins; the claims concern totality and finiteness, not the
particular counts. -/
def flesch_reading_ease (text : String) : ℚ :=
  206835/1000
    - 1015/1000 * safeDiv (countWords text) (countSentences text)
    - 846/10 * safeDiv (countSyllables text) (countWords text)

/-- The analysis_results dictionary assembled by analyze_document
(analyzer.py lines 58-66): the numeric score and narrative readability text
nested under "readability", and the three other critique texts at top
level. -/
def mkResults (score : ℚ) (readabilityTxt structureTxt completenessTxt styleTxt : String) :
    List (String × PyVal) :=
  [("readability", PyVal.dict [("score", PyVal.num score),
                               ("analysis", PyVal.str readabilityTxt)]),
   ("structure", PyVal.str structureTxt),
   ("completeness", PyVal.str completenessTxt),
   ("style", PyVal.str styleTxt)]

/-- DocumentAnalyzer.analyze_document (analyzer.py lines 27-75): score the
text, run the four critics in order, assemble the results dictionary, and
hand it to save_analysis.  The second component records the four prompts
dispatched to the endpoint, in dispatch order. -/
def analyzeDocument (key : Option String) (ep : EndpointBehavior) (st : Store)
    (session_id url text : String) : Option Store × List String :=
  let score := flesch_reading_ease text
  let readabilityTxt := analyzeReadability key ep text score
  let structureTxt := analyzeStructure key ep text
  let completenessTxt := analyzeCompleteness key ep text
  let styleTxt := analyzeStyle key ep text
  (saveAnalysis st session_id url text
     (mkResults score readabilityTxt structureTxt completenessTxt styleTxt),
   [readabilityPrompt score text, structurePrompt text,
    completenessPrompt text, stylePrompt text])

/-- The record returned by fetch_article_text (extractor.py lines 63-84):
the 'error' key is present exactly on the failure paths, modelled as an
Option. -/
structure FetchResult where
  content : String
  title : String
  url : String
  success : Bool
  error : Option String

deriving instance DecidableEq, Repr for FetchResult

/-- The behaviour of the external crawl4ai crawler inside
fetch_article_text_async's try block: either it raises, or it yields a
result object that may or may not carry a markdown attribute, a truthy
fit_markdown, a raw markdown string, and a title attribute. -/
inductive CrawlOutcome where
  | raises (msg : String)
  | page (hasMarkdownAttr : Bool) (fitMarkdown : Option String)
         (rawMarkdown : String) (titleAttr : Option String)

/-- fetch_article_text / fetch_article_text_async (extractor.py lines
8-100), with the crawler abstracted as a CrawlOutcome.  On an exception the
except branch returns success False, empty content and the exception text;
with no markdown attribute it returns success False with the fixed error
text; otherwise it prefers a truthy (non-empty) fit_markdown over the raw
markdown and returns success True with no error key. -/
def fetchArticleText (url : String) : CrawlOutcome → FetchResult
  | CrawlOutcome.raises msg => ⟨"", "", url, false, some msg⟩
  | CrawlOutcome.page hasMd fit raw titleAttr =>
      if hasMd then
        let content := match fit with
          | some f => if f.isEmpty then raw else f
          | none => raw
        ⟨content, titleAttr.getD "", url, true, none⟩
      else
        ⟨"", "", url, false, some "Failed to extract content"⟩

/-- analyze_url (streamlit_app.py lines 66-110): fetch the article; only if
extraction_result["success"] is truthy does it run analyze_document (which
performs the critiques and the save); on fetch failure it only displays the
error and touches nothing.  The second component is the list of critique
prompts dispatched; exceptions raised by the analysis (modelled by the
`none` branch of save) are caught and leave the displayed state unchanged. -/
def analyzeUrl (key : Option String) (ep : EndpointBehavior) (st : Store)
    (session_id url : String) (oc : CrawlOutcome) : Store × List String :=
  let fr := fetchArticleText url oc
  if fr.success then
    match analyzeDocument key ep st session_id url fr.content with
    | (some st2, calls) => (st2, calls)
    | (none, calls) => (st, calls)
  else
    (st, [])

/- Helper lemmas shared by several claims. -/

/-- Computation law for save_analysis on the exact dictionary shape that
analyze_document constructs: the appended SQLite row carries the six string
fields, and the content entry's summary metadata falls back to "N/A"
because no top-level "readability_score" key exists. -/
theorem saveAnalysis_mkResults (st : Store) (sid url content : String) (q : ℚ)
    (a s c y : String) :
    saveAnalysis st sid url content (mkResults q a s c y) =
      some ⟨st.sessions ++ [⟨sid, url, a, s, c, y⟩],
            st.contents ++ [⟨content, sid, url, "Readability: N/A", sid⟩]⟩ := rfl

/-- get_session on a store that holds no row for the identifier returns
None. -/
theorem getSession_not_present (st : Store) (sid : String)
    (h : ∀ r ∈ st.sessions, r.session_id ≠ sid) : getSession st sid = none := by
  unfold getSession
  rw [List.find?_eq_none]
  intro x hx
  simpa using h x hx

/-- Both guarded ratios of the Flesch formula are nonnegative. -/
theorem safeDiv_cast_nonneg (m n : Nat) : 0 ≤ safeDiv (m : ℚ) (n : ℚ) := by
  unfold safeDiv
  split
  · exact le_refl 0
  · exact div_nonneg (Nat.cast_nonneg _) (Nat.cast_nonneg _)

/-- The rowids of the list_recent/list_all ordering strictly decrease. -/
theorem sessionsDesc_rowids_pairwise (st : Store) :
    (((sessionsDesc st).map
        (fun p => RecentEntry.mk p.2.session_id p.2.url p.1)).map
      RecentEntry.rowid).Pairwise (fun a b => b < a) := by
  have h := List.pairwise_lt_range st.sessions.length
  rw [← List.enum_map_fst st.sessions, List.pairwise_map] at h
  rw [List.pairwise_map, List.pairwise_map]
  unfold sessionsDesc numberedRows
  rw [List.pairwise_reverse, List.pairwise_map]
  exact h.imp (by intro a b hab; simpa using by omega)

/-- get_recent_sessions' underlying unlimited ordering coincides with
get_all_sessions' ordering projected onto its three columns. -/
theorem getAllSessions_proj (st : Store) :
    (getAllSessions st).map projAll =
      (sessionsDesc st).map (fun p => RecentEntry.mk p.2.session_id p.2.url p.1) := by
  unfold getAllSessions projAll
  rw [List.map_map]
  rfl

/- Claim theorems. -/

/-- C1 (counterexample): the round-trip claim fails when a session_id is
written twice.  Saving session "s" with critique texts A,B,C,D and then
again with E,F,G,H leaves get_session("s") returning the first row, whose
fields differ from what the second save wrote. -/
theorem c1_counterexample :
    saveAnalysis ⟨[], []⟩ "s" "u" "body" (mkResults 0 "A" "B" "C" "D") =
      some ⟨[⟨"s", "u", "A", "B", "C", "D"⟩], [⟨"body", "s", "u", "Readability: N/A", "s"⟩]⟩ ∧
    saveAnalysis ⟨[⟨"s", "u", "A", "B", "C", "D"⟩], [⟨"body", "s", "u", "Readability: N/A", "s"⟩]⟩
        "s" "u" "body" (mkResults 0 "E" "F" "G" "H") =
      some ⟨[⟨"s", "u", "A", "B", "C", "D"⟩, ⟨"s", "u", "E", "F", "G", "H"⟩],
            [⟨"body", "s", "u", "Readability: N/A", "s"⟩, ⟨"body", "s", "u", "Readability: N/A", "s"⟩]⟩ ∧
    getSession ⟨[⟨"s", "u", "A", "B", "C", "D"⟩, ⟨"s", "u", "E", "F", "G", "H"⟩],
            [⟨"body", "s", "u", "Readability: N/A", "s"⟩, ⟨"body", "s", "u", "Readability: N/A", "s"⟩]⟩ "s"
      = some ⟨"s", "u", "A", "B", "C", "D"⟩ ∧
    (some (⟨"s", "u", "A", "B", "C", "D"⟩ : SessionRow) ≠ some ⟨"s", "u", "E", "F", "G", "H"⟩) :=
  ⟨rfl, rfl, rfl, by decide⟩

/-- C1 (amended): provided no row with the given session_id already exists,
save_analysis followed by get_session(session_id) returns exactly the row
that was written (its six fields are the session_id, the url, and the four
critique texts the save extracted); and for a session_id that was never
written, get_session returns None and never raises. -/
theorem c1_roundtrip_amended :
    (∀ (st : Store) (sid url content : String) (results : List (String × PyVal))
       (row : SessionRow) (st2 : Store),
       (∀ r ∈ st.sessions, r.session_id ≠ sid) →
       extractRow sid url results = some row →
       saveAnalysis st sid url content results = some st2 →
       getSession st2 sid = some row ∧ row.session_id = sid ∧ row.url = url) ∧
    (∀ (st : Store) (sid : String),
       (∀ r ∈ st.sessions, r.session_id ≠ sid) → getSession st sid = none) := by
  constructor
  · intro st sid url content results row st2 hfresh hrow hsave
    unfold saveAnalysis at hsave
    rw [hrow] at hsave
    have hid : row.session_id = sid ∧ row.url = url := by
      unfold extractRow at hrow
      split at hrow
      · simp only [Option.some.injEq] at hrow
        subst hrow
        exact ⟨rfl, rfl⟩
      · exact absurd hrow (by simp)
    cases hsave
    refine ⟨?_, hid⟩
    unfold getSession
    simp only
    rw [List.find?_append]
    have h1 : st.sessions.find? (fun r => r.session_id == sid) = none := by
      rw [List.find?_eq_none]
      intro x hx
      simpa using hfresh x hx
    rw [h1]
    simp [List.find?, hid.1]
  · exact getSession_not_present

/-- C1 (witness for the amended theorem): a concrete round-trip through an
empty store. -/
theorem c1_roundtrip_amended_witness :
    (∀ r ∈ (Store.mk [] []).sessions, r.session_id ≠ "s") ∧
    extractRow "s" "u" (mkResults 0 "A" "B" "C" "D") = some ⟨"s", "u", "A", "B", "C", "D"⟩ ∧
    saveAnalysis ⟨[], []⟩ "s" "u" "body" (mkResults 0 "A" "B" "C" "D") =
      some ⟨[⟨"s", "u", "A", "B", "C", "D"⟩], [⟨"body", "s", "u", "Readability: N/A", "s"⟩]⟩ ∧
    getSession ⟨[⟨"s", "u", "A", "B", "C", "D"⟩], [⟨"body", "s", "u", "Readability: N/A", "s"⟩]⟩ "s"
      = some ⟨"s", "u", "A", "B", "C", "D"⟩ ∧
    getSession ⟨[], []⟩ "never-written" = none :=
  ⟨by simp, rfl, rfl,
   (c1_roundtrip_amended.1 ⟨[], []⟩ "s" "u" "body" (mkResults 0 "A" "B" "C" "D")
     ⟨"s", "u", "A", "B", "C", "D"⟩ _ (by simp) rfl rfl).1,
   c1_roundtrip_amended.2 ⟨[], []⟩ "never-written" (by simp)⟩

/-- C2: when the fetch reports success=false, analyze_url halts before the
analysis: no critique prompt is dispatched, and both the session table and
the content store are left exactly as they were. -/
theorem c2_fetch_failure_halts_pipeline
    (key : Option String) (ep : EndpointBehavior) (st : Store)
    (sid url : String) (oc : CrawlOutcome)
    (h : (fetchArticleText url oc).success = false) :
    analyzeUrl key ep st sid url oc = (st, []) := by
  simp [analyzeUrl, h]

/-- C2 (witness): a concrete failing fetch (the crawler raised) leaves a
one-row store untouched and dispatches nothing. -/
theorem c2_fetch_failure_halts_pipeline_witness :
    (fetchArticleText "u" (CrawlOutcome.raises "boom")).success = false ∧
    analyzeUrl (some "k") (EndpointBehavior.raises "x")
        ⟨[⟨"s", "u", "A", "B", "C", "D"⟩], []⟩ "s2" "u" (CrawlOutcome.raises "boom")
      = (⟨[⟨"s", "u", "A", "B", "C", "D"⟩], []⟩, []) :=
  ⟨rfl, c2_fetch_failure_halts_pipeline (some "k") (EndpointBehavior.raises "x")
     ⟨[⟨"s", "u", "A", "B", "C", "D"⟩], []⟩ "s2" "u" (CrawlOutcome.raises "boom") rfl⟩

/-- C3: with a missing or empty API credential, each of the four critic
operations returns exactly the fixed sentinel string, for every input text,
score and endpoint behaviour (and, being a total function, never raises). -/
theorem c3_missing_key_sentinel
    (key : Option String) (h : falsy key = true)
    (ep : EndpointBehavior) (text : String) (score : ℚ) :
    analyzeReadability key ep text score =
      "Error: API key is not set. Please add your API key to the .env file as OPENROUTER_API_KEY." ∧
    analyzeStructure key ep text =
      "Error: API key is not set. Please add your API key to the .env file as OPENROUTER_API_KEY." ∧
    analyzeCompleteness key ep text =
      "Error: API key is not set. Please add your API key to the .env file as OPENROUTER_API_KEY." ∧
    analyzeStyle key ep text =
      "Error: API key is not set. Please add your API key to the .env file as OPENROUTER_API_KEY." := by
  refine ⟨?_, ?_, ?_, ?_⟩ <;>
    · simp only [analyzeReadability, analyzeStructure, analyzeCompleteness,
        analyzeStyle, askLlm]
      rw [h]
      simp

/-- C3 (witness): the absent credential (None) degrades a concrete critique
call to the sentinel. -/
theorem c3_missing_key_sentinel_witness :
    falsy none = true ∧
    analyzeReadability none (EndpointBehavior.raises "x") "some text" 50 =
      "Error: API key is not set. Please add your API key to the .env file as OPENROUTER_API_KEY." :=
  ⟨rfl, (c3_missing_key_sentinel none rfl (EndpointBehavior.raises "x") "some text" 50).1⟩

/-- C4 (counterexample): a non-200 response whose body does not parse as
JSON is reported through the Non-JSON branch, which does not mention the
status code: with status 500 and body "oops", _ask_llm returns a text that
does not contain "500". -/
theorem c4_counterexample :
    askLlm (some "k") "p" (EndpointBehavior.responds 500 ⟨false, "oops", false, "", "", false, ""⟩)
      = "API Error: Non-JSON response - oops" ∧
    ¬ containsStr "API Error: Non-JSON response - oops" "500" := by
  refine ⟨rfl, ?_⟩
  rintro ⟨l, r, h⟩
  have h5 : ('5' : Char) ∈ (l ++ ("500" ++ r)).data := by
    rw [String.data_append, String.data_append]
    exact List.mem_append_right _ (List.mem_append_left _ (by decide))
  rw [← h] at h5
  revert h5
  decide

/-- C4 (amended): for every endpoint response whose HTTP status differs from
200 and whose body parses as JSON, and with the credential present, the text
_ask_llm returns contains the decimal status code. -/
theorem c4_status_in_error_text_amended
    (key : Option String) (prompt : String) (status : Nat) (b : HttpBody)
    (hk : falsy key = false) (hj : b.isJson = true) (hs : status ≠ 200) :
    containsStr (askLlm key prompt (EndpointBehavior.responds status b)) (toString status) := by
  unfold askLlm
  rw [hk]
  simp only [Bool.false_eq_true, if_false, hj, Bool.not_true]
  rw [if_pos hs]
  exact ⟨"API Error: HTTP ", " - " ++ (if b.hasError then b.errorRepr else b.selfRepr), by
    rw [String.append_assoc, String.append_assoc]⟩

/-- C4 (witness for the amended theorem): a stubbed 500 response with a JSON
body containing an error value yields a text containing "500". -/
theorem c4_status_in_error_text_amended_witness :
    falsy (some "k") = false ∧
    (⟨true, "", true, "quota", "rep", false, ""⟩ : HttpBody).isJson = true ∧
    (500 : Nat) ≠ 200 ∧
    containsStr (askLlm (some "k") "p"
        (EndpointBehavior.responds 500 ⟨true, "", true, "quota", "rep", false, ""⟩))
      (toString (500 : Nat)) :=
  ⟨rfl, rfl, by decide,
   c4_status_in_error_text_amended (some "k") "p" 500
     ⟨true, "", true, "quota", "rep", false, ""⟩ rfl rfl (by decide)⟩

/-- C5: fetch_article_text is total (never raises) and returns the
content/title/url/success record; a crawler exception is reported as
success=false with the exception text as the error string; and whenever
success=false the content is the empty string and an error string is
present. -/
theorem c5_fetch_failure_shape (url : String) (oc : CrawlOutcome) :
    (fetchArticleText url oc).url = url ∧
    (∀ msg, fetchArticleText url (CrawlOutcome.raises msg) =
      ⟨"", "", url, false, some msg⟩) ∧
    ((fetchArticleText url oc).success = false →
      (fetchArticleText url oc).content = "" ∧ (fetchArticleText url oc).error ≠ none) := by
  refine ⟨?_, fun msg => rfl, ?_⟩ <;> cases oc with
  | raises msg => first
      | exact rfl
      | exact fun _ => ⟨rfl, by simp [fetchArticleText]⟩
  | page hasMd fit raw titleAttr => first
      | cases hasMd <;> rfl
      | cases hasMd with
        | false => exact fun _ => ⟨rfl, by simp [fetchArticleText]⟩
        | true => exact fun h => absurd h (by simp [fetchArticleText])

/-- C5 (witness): a concrete crawler exception produces the failure record
with empty content and a present error string. -/
theorem c5_fetch_failure_shape_witness :
    (fetchArticleText "u" (CrawlOutcome.raises "boom")).success = false ∧
    (fetchArticleText "u" (CrawlOutcome.raises "boom")).content = "" ∧
    (fetchArticleText "u" (CrawlOutcome.raises "boom")).error ≠ none :=
  ⟨rfl, (c5_fetch_failure_shape "u" (CrawlOutcome.raises "boom")).2.2 rfl⟩

/-- C6 (counterexample): the "at most n entries" part fails for a negative
limit: SQLite treats a negative LIMIT as unbounded, so after one save,
list_recent(-1) returns one entry, which is not at most -1. -/
theorem c6_counterexample :
    saveAnalysis ⟨[], []⟩ "s" "u" "body" (mkResults 0 "A" "B" "C" "D") =
      some ⟨[⟨"s", "u", "A", "B", "C", "D"⟩], [⟨"body", "s", "u", "Readability: N/A", "s"⟩]⟩ ∧
    getRecentSessions ⟨[⟨"s", "u", "A", "B", "C", "D"⟩], [⟨"body", "s", "u", "Readability: N/A", "s"⟩]⟩ (-1)
      = [⟨"s", "u", 1⟩] ∧
    ¬ (((getRecentSessions ⟨[⟨"s", "u", "A", "B", "C", "D"⟩],
          [⟨"body", "s", "u", "Readability: N/A", "s"⟩]⟩ (-1)).length : Int) ≤ -1) :=
  ⟨rfl, rfl, by decide⟩

/-- C6 (amended): for every store and every nonnegative n, list_recent(n)
returns at most n entries; and for every n (negative ones included, where
the SQLite LIMIT is unbounded), the returned sequence is a prefix of
list_all()'s ordering projected onto the (session_id, url, rowid) columns,
and its rowids strictly decrease, i.e. the entries come
most-recently-inserted first. -/
theorem c6_recent_prefix_amended (st : Store) (n : Int) :
    (0 ≤ n → ((getRecentSessions st n).length : Int) ≤ n) ∧
    getRecentSessions st n <+: (getAllSessions st).map projAll ∧
    ((getRecentSessions st n).map RecentEntry.rowid).Pairwise (fun a b => b < a) := by
  refine ⟨?_, ?_, ?_⟩
  · intro h
    simp only [getRecentSessions]
    rw [if_neg (by omega)]
    calc ((List.take n.toNat _).length : Int)
          ≤ (n.toNat : Int) := by exact_mod_cast List.length_take_le _ _
      _ = n := Int.toNat_of_nonneg h
  · simp only [getRecentSessions]
    rw [getAllSessions_proj]
    split
    · exact List.prefix_refl _
    · exact List.take_prefix _ _
  · simp only [getRecentSessions]
    split
    · exact sessionsDesc_rowids_pairwise st
    · rw [List.map_take]
      exact (sessionsDesc_rowids_pairwise st).sublist (List.take_sublist _ _)

/-- C6 (witness for the amended theorem): a one-row store queried with
limit 5. -/
theorem c6_recent_prefix_amended_witness :
    (0 : Int) ≤ 5 ∧
    ((getRecentSessions ⟨[⟨"s", "u", "A", "B", "C", "D"⟩], []⟩ 5).length : Int) ≤ 5 ∧
    getRecentSessions ⟨[⟨"s", "u", "A", "B", "C", "D"⟩], []⟩ 5 <+:
      (getAllSessions ⟨[⟨"s", "u", "A", "B", "C", "D"⟩], []⟩).map projAll ∧
    ((getRecentSessions ⟨[⟨"s", "u", "A", "B", "C", "D"⟩], []⟩ 5).map
        RecentEntry.rowid).Pairwise (fun a b => b < a) :=
  ⟨by decide,
   (c6_recent_prefix_amended ⟨[⟨"s", "u", "A", "B", "C", "D"⟩], []⟩ 5).1 (by decide),
   (c6_recent_prefix_amended ⟨[⟨"s", "u", "A", "B", "C", "D"⟩], []⟩ 5).2.1,
   (c6_recent_prefix_amended ⟨[⟨"s", "u", "A", "B", "C", "D"⟩], []⟩ 5).2.2⟩

/-- C7: every critic prompt embeds exactly text[:2000] — the embedded
excerpt is a contiguous substring of the prompt, it is a prefix of the
input text, its length is min(2000, length of text), and those four prompts
are exactly what analyze_document dispatches, in order. -/
theorem c7_prompt_embeds_truncation (text : String) (score : ℚ) :
    containsStr (readabilityPrompt score text) (pyTrunc text 2000) ∧
    containsStr (structurePrompt text) (pyTrunc text 2000) ∧
    containsStr (completenessPrompt text) (pyTrunc text 2000) ∧
    containsStr (stylePrompt text) (pyTrunc text 2000) ∧
    (pyTrunc text 2000).data <+: text.data ∧
    (pyTrunc text 2000).length = min 2000 text.length ∧
    (∀ (key : Option String) (ep : EndpointBehavior) (st : Store) (sid url : String),
      (analyzeDocument key ep st sid url text).2 =
        [readabilityPrompt (flesch_reading_ease text) text, structurePrompt text,
         completenessPrompt text, stylePrompt text]) := by
  refine ⟨?_, ?_, ?_, ?_, List.take_prefix _ _, ?_, fun key ep st sid url => rfl⟩
  · unfold readabilityPrompt
    exact ⟨_, _, String.append_assoc _ _ _⟩
  · unfold structurePrompt
    exact ⟨_, _, String.append_assoc _ _ _⟩
  · unfold completenessPrompt
    exact ⟨_, _, String.append_assoc _ _ _⟩
  · unfold stylePrompt
    exact ⟨_, _, String.append_assoc _ _ _⟩
  · exact List.length_take 2000 text.data

/-- C8: the structured row written for an analysis contains only the
session_id, the url and the four narrative critique texts — the numeric
score nested in the results dictionary does not reach the row or the
summary, so two analyses differing only in their score write identical
stores, and a session reloaded from storage cannot recover the score. -/
theorem c8_score_not_persisted
    (st : Store) (sid url content : String) (q q2 : ℚ) (a s c y : String) :
    saveAnalysis st sid url content (mkResults q a s c y) =
      some ⟨st.sessions ++ [⟨sid, url, a, s, c, y⟩],
            st.contents ++ [⟨content, sid, url, "Readability: N/A", sid⟩]⟩ ∧
    saveAnalysis st sid url content (mkResults q a s c y) =
      saveAnalysis st sid url content (mkResults q2 a s c y) :=
  ⟨saveAnalysis_mkResults st sid url content q a s c y,
   (saveAnalysis_mkResults st sid url content q a s c y).trans
     (saveAnalysis_mkResults st sid url content q2 a s c y).symm⟩

/-- C9: the Scorer is a total function into ℚ — for every input it yields a
finite rational bounded by the formula's base constant (the two ratio terms
it subtracts are guarded against division by zero and nonnegative), and for
the empty string it yields exactly the base constant 206.835, the degenerate
default the spec requires; being a total Lean function, it never raises
and never returns a non-numeric value. -/
theorem c9_scorer_total_finite :
    (∀ text : String, flesch_reading_ease text ≤ 206835/1000) ∧
    flesch_reading_ease "" = 206835/1000 := by
  constructor
  · intro text
    unfold flesch_reading_ease
    have h1 := safeDiv_cast_nonneg (countWords text) (countSentences text)
    have h2 := safeDiv_cast_nonneg (countSyllables text) (countWords text)
    nlinarith
  · have h1 : countWords "" = 0 := rfl
    have h2 : countSentences "" = 0 := rfl
    have h3 : countSyllables "" = 0 := rfl
    unfold flesch_reading_ease
    rw [h1, h2, h3]
    norm_num [safeDiv]

/-- C10: the top-level key "readability_score" never exists in the results
dictionary analyze_document assembles (the score is nested under
"readability"), so the .get default is always taken and the analysis_summary
metadata written to the content store equals the constant
"Readability: N/A". -/
theorem c10_summary_constant :
    (∀ (q : ℚ) (a s c y : String),
      pyLookup (mkResults q a s c y) "readability_score" = none) ∧
    (∀ (key : Option String) (ep : EndpointBehavior) (st : Store)
       (sid url text : String),
      ∃ row : SessionRow,
        (analyzeDocument key ep st sid url text).1 =
          some ⟨st.sessions ++ [row],
                st.contents ++ [⟨text, sid, url, "Readability: N/A", sid⟩]⟩) := by
  constructor
  · intro q a s c y
    rfl
  · intro key ep st sid url text
    exact ⟨_, saveAnalysis_mkResults st sid url text _ _ _ _ _⟩
